import Mathlib

/-
Verification of the Terra environmental-data pipeline.

The development shallowly embeds the two-stage pipeline of the repository:
the acquisition/normalization stage (src/src/lib/actions.ts) and the
insight-orchestration stage (src/src/ai/flows/ai-orchestrator.ts), over ℚ
for JS numbers.  Impure inputs of the source (network responses, the
Math.random entropy, clock readings) are passed as explicit parameters.
-/

namespace Terra

/-- Model of JS `parseFloat(x.toFixed(2))`: round to two decimal digits.
The source rounds half away from zero; the half-up model below agrees with
it everywhere the claims look (bounds preservation and non-tie values). -/
def round2 (q : ℚ) : ℚ := ((⌊q * 100 + 1 / 2⌋ : ℤ) : ℚ) / 100

/-- Model of JS `Math.min` on two numbers. -/
def jsMin (a b : ℚ) : ℚ := if a ≤ b then a else b

/-- Model of JS `Math.max` on two numbers. -/
def jsMax (a b : ℚ) : ℚ := if a ≤ b then b else a

/-- Model of JS `x.toFixed(d)`: decimal string with exactly `d` digits. -/
def jsToFixed (d : ℕ) (q : ℚ) : String :=
  let scaled : ℤ := ⌊q * (10 : ℚ) ^ d + 1 / 2⌋
  let sign := if scaled < 0 then "-" else ""
  let n := scaled.natAbs
  let ip := n / 10 ^ d
  let fp := n % 10 ^ d
  let fpStr := toString fp
  let padded := String.mk (List.replicate (d - fpStr.length) '0') ++ fpStr
  if d = 0 then sign ++ toString ip else sign ++ toString ip ++ "." ++ padded

/-- Model of JS number-to-string coercion inside template literals.  The
claims never depend on the exact rendering, only on totality. -/
def jsNumToString (q : ℚ) : String :=
  if q.den = 1 then toString q.num else jsToFixed 2 q

/-- JS `a || b` on an optional string: `undefined` and `""` are falsy. -/
def jsOrString (s : Option String) (dflt : String) : String :=
  match s with
  | some n => if n = "" then dflt else n
  | none => dflt

/-- JS template-literal interpolation of a possibly-undefined string. -/
def jsTemplateOptString : Option String → String
  | some s => s
  | none => "undefined"

/-- JS `list[i] || ""` with a possibly negative index. -/
def jsIndexOr (l : List String) (i : ℤ) : String :=
  if 0 ≤ i then l.getD i.toNat "" else ""

/-- Insertion of a string into a sorted list, by the default (code-point
lexicographic) comparison; model of a step of JS `Array.sort()`. -/
def insertSorted (s : String) : List String → List String
  | [] => [s]
  | t :: ts => if (compare s t).isLE then s :: t :: ts else t :: insertSorted s ts

/-- Model of JS `Array.sort()` on strings (insertion sort). -/
def sortStrings (l : List String) : List String :=
  l.foldr insertSorted []

/- ===== Data model (src/src/lib/types.ts) ===== -/

structure Location where
  lat : ℚ
  lng : ℚ
  name : Option String := none
deriving Repr, DecidableEq

/-- Syntactic validity of a Location (spec §3). -/
def Location.isValid (l : Location) : Prop :=
  -90 ≤ l.lat ∧ l.lat ≤ 90 ∧ -180 ≤ l.lng ∧ l.lng ≤ 180

structure AirQualityData where
  aerosolIndex : ℚ
  co : ℚ
deriving Repr, DecidableEq

structure SoilData where
  moisture : ℚ
  temperature : ℚ
  ph : ℚ
  nitrogen : ℚ
  phosphorus : ℚ
  potassium : ℚ
deriving Repr, DecidableEq

inductive FireRisk where
  | low
  | medium
  | high
  | veryHigh
  | unknown
deriving Repr, DecidableEq

/-- Rendering of the fire-risk union literals of the source. -/
def FireRisk.label : FireRisk → String
  | .low => "low"
  | .medium => "medium"
  | .high => "high"
  | .veryHigh => "very-high"
  | .unknown => "unknown"

/-- Rank of the four ordered tiers (low < medium < high < very-high);
`unknown` sits outside the order and is given the top rank. -/
def FireRisk.rank : FireRisk → ℕ
  | .low => 0
  | .medium => 1
  | .high => 2
  | .veryHigh => 3
  | .unknown => 4

structure FireData where
  activeFires : ℕ
  fireRisk : FireRisk
deriving Repr, DecidableEq

structure WaterData where
  surfaceWater : ℚ
  precipitation : ℚ
deriving Repr, DecidableEq

structure WeatherForecast where
  day : String
  temp : ℚ
  min : ℚ
  max : ℚ
  condition : String
deriving Repr, DecidableEq

structure WeatherData where
  currentTemp : ℚ
  forecast : List WeatherForecast
deriving Repr, DecidableEq

structure VegetationData where
  ndvi : ℚ
deriving Repr, DecidableEq

structure EnvironmentalData where
  airQuality : AirQualityData
  soil : SoilData
  fire : FireData
  water : WaterData
  weather : WeatherData
  vegetation : VegetationData
  lastUpdated : String
deriving Repr, DecidableEq

/- ===== Constants (src/src/lib/actions.ts lines 7-11) ===== -/

def FORECAST_DAYS : ℕ := 5
def NASA_FILL_VALUE : ℚ := -999
def DEFAULT_TEMPERATURE : ℚ := 20

/- ===== NASA POWER payload (src/src/lib/actions.ts lines 14-26) ===== -/

structure NasaHeader where
  fill_value : ℚ
deriving Repr, DecidableEq

structure NasaProperties where
  parameter : List (String × List (String × ℚ))
deriving Repr, DecidableEq

structure NasaPowerResponse where
  header : Option NasaHeader
  properties : Option NasaProperties
deriving Repr, DecidableEq

/-- The optional chain `powerData?.properties?.parameter?.[param]` of the
source: the per-date table of one parameter, when present. -/
def powerLookupParam (powerData : Option NasaPowerResponse) (param : String) :
    Option (List (String × ℚ)) := do
  let pd ← powerData
  let props ← pd.properties
  props.parameter.lookup param

/-- The optional chain `powerData?.properties?.parameter?.[param]?.[dateKey]`. -/
def powerLookup (powerData : Option NasaPowerResponse) (param dateKey : String) :
    Option ℚ := do
  let entry ← powerLookupParam powerData param
  entry.lookup dateKey

/-- `powerData.header?.fill_value ?? CONSTANTS.NASA_FILL_VALUE`
(src/src/lib/actions.ts line 159). -/
def fillValueOf (powerData : Option NasaPowerResponse) : ℚ :=
  ((powerData.bind fun r => r.header).map fun h => h.fill_value).getD NASA_FILL_VALUE

/-- `extractPowerValue` (src/src/lib/actions.ts lines 147-169).  The first
branch is the JS falsy guard on the optional chain, so a present value of 0
also takes the fallback.  The impure `fallback` closure is represented by
the value it would produce. -/
def extractPowerValue (powerData : Option NasaPowerResponse)
    (param dateKey : String) (fallback : ℚ) : ℚ :=
  match powerLookup powerData param dateKey with
  | none => round2 fallback
  | some value =>
    if value = 0 then round2 fallback
    else if value ≠ fillValueOf powerData then round2 value
    else round2 fallback

/- ===== Fire source client (src/src/lib/actions.ts lines 102-143) ===== -/

/-- Outcome of the one outbound FIRMS request. -/
inductive FirmsOutcome where
  /-- `fetch` itself threw (timeout or network error). -/
  | thrown
  /-- A response arrived but `response.ok` was false. -/
  | httpError
  /-- A 2xx response with the given CSV body. -/
  | ok (body : String)
deriving Repr, DecidableEq

/-- Line counting of the CSV body (lines 130-131): one header line,
remaining lines are fire records. -/
def countCsvFires (text : String) : ℕ :=
  let lines := text.trim.splitOn "\n"
  if lines.length > 1 then lines.length - 1 else 0

/-- The fixed-threshold fire-risk tiering (lines 133-137). -/
def fireRiskOfCount (activeFires : ℕ) : FireRisk :=
  if activeFires > 10 then .veryHigh
  else if activeFires > 5 then .high
  else if activeFires > 0 then .medium
  else .low

/-- Result of one `fetchFireData` call, together with whether the outbound
network request was issued at all. -/
structure FireFetchResult where
  data : FireData
  networkCallIssued : Bool
deriving Repr, DecidableEq

/-- `fetchFireData` (lines 102-143).  `apiKeySet` is whether
`process.env.FIRMS_API_KEY` is set; when it is not, the function returns
before any URL is built or request sent.  `location` only feeds the request
URL in the source and does not influence the returned value. -/
def fetchFireData (apiKeySet : Bool) (_location : Location)
    (outcome : FirmsOutcome) : FireFetchResult :=
  if apiKeySet = false then ⟨⟨0, .low⟩, false⟩
  else
    match outcome with
    | .thrown => ⟨⟨0, .unknown⟩, true⟩
    | .httpError => ⟨⟨0, .low⟩, true⟩
    | .ok body =>
      let activeFires := countCsvFires body
      ⟨⟨activeFires, fireRiskOfCount activeFires⟩, true⟩

/- ===== Synthesis stage (src/src/lib/actions.ts lines 172-244) ===== -/

/-- One settled promise, as produced by `Promise.allSettled`. -/
inductive SettledResult (α : Type) where
  | fulfilled (value : α)
  | rejected
deriving Repr, DecidableEq

/-- One value per `Math.random()` call site of `fetchEnvironmentalData`,
named by the field the draw feeds. -/
structure Entropy where
  tempRand : ℚ
  forecastTempRand : Fin 5 → ℚ
  precipRand : ℚ
  moistureRand : ℚ
  phRand : ℚ
  aodRand : ℚ
  coRand : ℚ

/-- Every entropy draw lies in `[0, 1)`, as `Math.random()` guarantees. -/
def Entropy.valid (e : Entropy) : Prop :=
  0 ≤ e.tempRand ∧ e.tempRand < 1 ∧
  (∀ i, 0 ≤ e.forecastTempRand i ∧ e.forecastTempRand i < 1) ∧
  0 ≤ e.precipRand ∧ e.precipRand < 1 ∧
  0 ≤ e.moistureRand ∧ e.moistureRand < 1 ∧
  0 ≤ e.phRand ∧ e.phRand < 1 ∧
  0 ≤ e.aodRand ∧ e.aodRand < 1 ∧
  0 ≤ e.coRand ∧ e.coRand < 1

/-- `fetchEnvironmentalData` (lines 172-244).  The two settled source-client
promises, the entropy, the forecast day labels (from the system clock) and
the `new Date().toISOString()` reading are explicit inputs. -/
def fetchEnvironmentalData (powerSettled : SettledResult (Option NasaPowerResponse))
    (fireSettled : SettledResult FireData) (e : Entropy)
    (dayName : ℕ → String) (nowIso : String) : EnvironmentalData :=
  let nasaData : Option NasaPowerResponse :=
    match powerSettled with
    | .fulfilled v => v
    | .rejected => none
  let fireInfo : FireData :=
    match fireSettled with
    | .fulfilled v => v
    | .rejected => ⟨0, .unknown⟩
  let dateKeys : List String :=
    match powerLookupParam nasaData "TS_DAY_MODIS" with
    | some entry => sortStrings (entry.map Prod.fst)
    | none => []
  let todayKey : String :=
    if dateKeys.length ≥ 3 then jsIndexOr dateKeys ((dateKeys.length : ℤ) - 3) else ""
  let currentTemp :=
    extractPowerValue nasaData "TS_DAY_MODIS" todayKey (DEFAULT_TEMPERATURE + e.tempRand * 10)
  let forecast : List WeatherForecast :=
    (List.finRange FORECAST_DAYS).map fun index =>
      let key := jsIndexOr dateKeys ((dateKeys.length : ℤ) - 5 + (index : ℕ))
      { day := dayName index
        temp := extractPowerValue nasaData "TS_DAY_MODIS" key
                  (currentTemp + e.forecastTempRand index * 4 - 2)
        max := extractPowerValue nasaData "T2M_MAX" key (currentTemp + 5)
        min := extractPowerValue nasaData "T2M_MIN" key (currentTemp - 5)
        condition := "Varies" }
  let avgPrecip : ℚ :=
    if dateKeys.length > 0 then
      ((dateKeys.map fun key => extractPowerValue nasaData "PRECTOTCORR" key 0).sum) /
        (dateKeys.length : ℚ)
    else e.precipRand * 10
  let soilMoisture : ℚ :=
    if avgPrecip > 1 then e.moistureRand * (1 / 2) + 1 / 5 else e.moistureRand * (3 / 10)
  let ndvi :=
    extractPowerValue nasaData "NDVI_MODIS" todayKey
      (jsMin (9 / 10) (jsMax (1 / 10) (soilMoisture * (6 / 5))))
  let airQuality : AirQualityData :=
    { aerosolIndex := extractPowerValue nasaData "AOD_550_MISR" todayKey (e.aodRand * (1 / 2))
      co := extractPowerValue nasaData "CO_COLUMN_MOPITT" todayKey (e.coRand * (1 / 20)) }
  { airQuality := airQuality
    soil :=
      { moisture := round2 soilMoisture
        temperature := currentTemp
        ph := round2 (11 / 2 + e.phRand * 2)
        nitrogen := round2 (10 + soilMoisture * 40)
        phosphorus := round2 (5 + soilMoisture * 20)
        potassium := round2 (20 + soilMoisture * 50) }
    fire := fireInfo
    water :=
      { surfaceWater := round2 (jsMin (9 / 10) (soilMoisture * (3 / 2)))
        precipitation := round2 avgPrecip }
    weather := { currentTemp := currentTemp, forecast := forecast }
    vegetation := { ndvi := round2 ndvi }
    lastUpdated := nowIso }

/-- The synthesized snapshot when the NASA POWER payload is absent
(credential missing, HTTP error, timeout, or a rejected promise): every
field takes its fallback formula.  This is the body of
`fetchEnvironmentalData` specialized to `nasaData = null`; the agreement is
proved definitionally below. -/
def synthesizedFallbackSnapshot (fireSettled : SettledResult FireData) (e : Entropy)
    (dayName : ℕ → String) (nowIso : String) : EnvironmentalData :=
  let fireInfo : FireData :=
    match fireSettled with
    | .fulfilled v => v
    | .rejected => ⟨0, .unknown⟩
  let currentTemp := round2 (DEFAULT_TEMPERATURE + e.tempRand * 10)
  let forecast : List WeatherForecast :=
    (List.finRange FORECAST_DAYS).map fun index =>
      { day := dayName index
        temp := round2 (currentTemp + e.forecastTempRand index * 4 - 2)
        max := round2 (currentTemp + 5)
        min := round2 (currentTemp - 5)
        condition := "Varies" }
  let avgPrecip : ℚ := e.precipRand * 10
  let soilMoisture : ℚ :=
    if avgPrecip > 1 then e.moistureRand * (1 / 2) + 1 / 5 else e.moistureRand * (3 / 10)
  let ndvi := round2 (jsMin (9 / 10) (jsMax (1 / 10) (soilMoisture * (6 / 5))))
  { airQuality :=
      { aerosolIndex := round2 (e.aodRand * (1 / 2)), co := round2 (e.coRand * (1 / 20)) }
    soil :=
      { moisture := round2 soilMoisture
        temperature := currentTemp
        ph := round2 (11 / 2 + e.phRand * 2)
        nitrogen := round2 (10 + soilMoisture * 40)
        phosphorus := round2 (5 + soilMoisture * 20)
        potassium := round2 (20 + soilMoisture * 50) }
    fire := fireInfo
    water :=
      { surfaceWater := round2 (jsMin (9 / 10) (soilMoisture * (3 / 2)))
        precipitation := round2 avgPrecip }
    weather := { currentTemp := currentTemp, forecast := forecast }
    vegetation := { ndvi := round2 ndvi }
    lastUpdated := nowIso }

/- ===== Orchestration stage (src/src/ai/flows/ai-orchestrator.ts) ===== -/

/-- The input the orchestrator flow body dereferences: the snapshot fields
together with a `location` record (`data.location`, lines 35 and 105). -/
structure OrchestratorEnvData extends EnvironmentalData where
  location : Location

/-- Output record of the `futureTrendPredictions` flow. -/
structure FutureTrendPredictionsOutput where
  predictions : String
deriving Repr, DecidableEq

/-- Output record of the `getCropRecommendations` flow. -/
structure CropRecommendationsOutput where
  cropRecommendations : String
deriving Repr, DecidableEq

/-- Output record of the `aiRiskAssessment` flow. -/
structure AIRiskAssessmentOutput where
  riskAssessment : String
deriving Repr, DecidableEq

/-- Output record of the `getSimplifiedExplanation` flow. -/
structure SimplifiedExplanationOutput where
  simplifiedExplanation : String
deriving Repr, DecidableEq

/-- Output record of the `aiEnvironmentalSolutions` flow. -/
structure AIEnvironmentalSolutionsOutput where
  solutions : String
deriving Repr, DecidableEq

/-- Output record of the `healthAdvisory` flow. -/
structure HealthAdvisoryOutput where
  healthAdvisory : String
deriving Repr, DecidableEq

/-- The six settled generation-task promises, in the order of the `aiCalls`
array (ai-orchestrator.ts lines 67-74 and the destructuring at 79-86). -/
structure GenerationOutcomes where
  predictionsResult : SettledResult FutureTrendPredictionsOutput
  cropRecommendationsResult : SettledResult CropRecommendationsOutput
  riskAssessmentResult : SettledResult AIRiskAssessmentOutput
  simplifiedExplanationResult : SettledResult SimplifiedExplanationOutput
  environmentalSolutionsResult : SettledResult AIEnvironmentalSolutionsOutput
  healthResult : SettledResult HealthAdvisoryOutput
deriving Repr, DecidableEq

structure AIOrchestratorOutput where
  summary : String
  futurePredictions : String
  cropRecommendations : String
  riskAssessment : String
  simplifiedExplanation : String
  environmentalSolutions : String
  healthAdvisory : String
deriving Repr, DecidableEq

/-- `result.status === 'fulfilled' ? f(result.value) : fallbackText`. -/
def settledOr {α : Type} (result : SettledResult α) (f : α → String)
    (fallbackText : String) : String :=
  match result with
  | .fulfilled v => f v
  | .rejected => fallbackText

/-- `generateSummary` (ai-orchestrator.ts lines 34-53): the non-generative
baseline summary computed directly from the snapshot. -/
def generateSummary (data : OrchestratorEnvData) : String :=
  let locationName :=
    jsOrString data.location.name
      (jsToFixed 2 data.location.lat ++ ", " ++ jsToFixed 2 data.location.lng)
  let airQualityStatus :=
    if data.airQuality.aerosolIndex < 1 / 10 then "clear"
    else if data.airQuality.aerosolIndex < 3 / 10 then "hazy"
    else "very hazy or smoky"
  let vegetationStatus :=
    if data.vegetation.ndvi > 6 / 10 then "thriving"
    else if data.vegetation.ndvi > 4 / 10 then "healthy"
    else if data.vegetation.ndvi > 2 / 10 then "stressed"
    else "critical"
  let soilHealth :=
    if 6 ≤ data.soil.ph ∧ data.soil.ph ≤ 15 / 2 ∧
        data.soil.moisture > 3 / 10 ∧ data.soil.moisture < 7 / 10
    then "optimal" else "suboptimal"
  "Environmental assessment for " ++ locationName ++ " reveals " ++ airQualityStatus ++
    " air quality (Aerosol Index: " ++ jsToFixed 3 data.airQuality.aerosolIndex ++ "). " ++
    "Vegetation is " ++ vegetationStatus ++ " with an NDVI of " ++
    jsToFixed 2 data.vegetation.ndvi ++ ". " ++
    "Soil conditions are " ++ soilHealth ++ " with " ++
    jsToFixed 1 (data.soil.moisture * 100) ++ "% moisture and pH " ++
    jsNumToString data.soil.ph ++ ". " ++
    "Fire risk is " ++ data.fire.fireRisk.label ++ " with " ++
    jsNumToString (data.fire.activeFires : ℚ) ++ " active fires in the region. " ++
    "Recent precipitation totals " ++ jsNumToString data.water.precipitation ++
    "mm with current surface temperature at " ++
    jsNumToString data.weather.currentTemp ++ "°C."

/-- Fallback for the future-trend task (line 96). -/
def predictionsFallback : String := "Future trend analysis is temporarily unavailable."

/-- Fallback for the crop-recommendation task (line 99). -/
def cropFallback : String := "Crop recommendations are being processed."

/-- Fallback for the risk-assessment task (line 102). -/
def riskFallback : String := "Risk assessment in progress."

/-- Fallback for the simplified-explanation task (line 105); it interpolates
`environmentalData.location.name` into a template literal. -/
def simplifiedFallback (env : OrchestratorEnvData) : String :=
  "Environmental conditions at " ++ jsTemplateOptString env.location.name ++
    " are being analyzed."

/-- Fallback for the environmental-solutions task (line 108). -/
def solutionsFallback : String := "Environmental solutions are being formulated."

/-- Fallback for the health-advisory task (line 111). -/
def healthFallback : String := "Health advisory is currently unavailable."

/-- `orchestratorFlow` (ai-orchestrator.ts lines 64-122) after the six
promises have settled: assembles the output with per-task fallbacks. -/
def orchestratorFlow (environmentalData : OrchestratorEnvData)
    (results : GenerationOutcomes) : AIOrchestratorOutput :=
  { summary := generateSummary environmentalData
    futurePredictions :=
      settledOr results.predictionsResult (fun v => v.predictions) predictionsFallback
    cropRecommendations :=
      settledOr results.cropRecommendationsResult (fun v => v.cropRecommendations) cropFallback
    riskAssessment :=
      settledOr results.riskAssessmentResult (fun v => v.riskAssessment) riskFallback
    simplifiedExplanation :=
      settledOr results.simplifiedExplanationResult (fun v => v.simplifiedExplanation)
        (simplifiedFallback environmentalData)
    environmentalSolutions :=
      settledOr results.environmentalSolutionsResult (fun v => v.solutions) solutionsFallback
    healthAdvisory :=
      settledOr results.healthResult (fun v => v.healthAdvisory) healthFallback }

/- ===== getLocationData (src/src/lib/actions.ts lines 314-346) ===== -/

/-- The value returned to the presentation layer:
`EnvironmentalData & AIInsights` (with health advisory). -/
structure Report extends EnvironmentalData where
  summary : String
  futurePredictions : String
  cropRecommendations : String
  riskAssessment : String
  simplifiedExplanation : String
  environmentalSolutions : String
  healthAdvisory : String

/-- The spread `{ ...environmentalData, ...aiInsights }`. -/
def mkReport (env : EnvironmentalData) (o : AIOrchestratorOutput) : Report :=
  { toEnvironmentalData := env
    summary := o.summary
    futurePredictions := o.futurePredictions
    cropRecommendations := o.cropRecommendations
    riskAssessment := o.riskAssessment
    simplifiedExplanation := o.simplifiedExplanation
    environmentalSolutions := o.environmentalSolutions
    healthAdvisory := o.healthAdvisory }

/-- Settled outcome of the `aiInsightsOrchestrator` call made by
`getLocationData`.  The call site passes `{ location, environmentalData }`
while the flow body dereferences snapshot fields at the top level, so the
call may throw at run time; both outcomes are covered by this parameter. -/
inductive OrchestratorOutcome where
  | ok (output : AIOrchestratorOutput)
  | thrown

/-- The static insight strings of the catch branch of `getLocationData`
(actions.ts lines 336-344). -/
def fallbackInsights : AIOrchestratorOutput :=
  { summary := "AI insights temporarily unavailable."
    futurePredictions := "Unable to generate predictions."
    cropRecommendations := "Unable to generate recommendations."
    riskAssessment := "Unable to assess risks."
    simplifiedExplanation := "Unable to generate explanation."
    environmentalSolutions := "Unable to generate solutions."
    healthAdvisory := "Unable to generate health advisory." }

/-- Everything the outside world feeds one `getLocationData` call: the
source-client outcomes and clock readings of the first acquisition, the
orchestrator outcome, and those of the refetch performed by the catch
branch. -/
structure WorldInputs where
  power1 : SettledResult (Option NasaPowerResponse)
  fire1 : SettledResult FireData
  e1 : Entropy
  nowIso1 : String
  orch : OrchestratorOutcome
  power2 : SettledResult (Option NasaPowerResponse)
  fire2 : SettledResult FireData
  e2 : Entropy
  nowIso2 : String
  dayName : ℕ → String

/-- `getLocationData` (actions.ts lines 314-346).  The try branch merges
the snapshot with the orchestrator output; the catch branch refetches the
snapshot (`fetchEnvironmentalData` never rejects: `Promise.allSettled`
never rejects and the synthesis body is exception-free, so the inner
rethrow at line 333 is unreachable) and merges the static fallbacks. -/
def getLocationData (_location : Location) (w : WorldInputs) : Report :=
  let environmentalData := fetchEnvironmentalData w.power1 w.fire1 w.e1 w.dayName w.nowIso1
  match w.orch with
  | .ok aiInsights => mkReport environmentalData aiInsights
  | .thrown =>
    let refetched := fetchEnvironmentalData w.power2 w.fire2 w.e2 w.dayName w.nowIso2
    mkReport refetched fallbackInsights

/-- All seven insight text fields are non-empty. -/
def insightsTextNonempty (o : AIOrchestratorOutput) : Prop :=
  o.summary ≠ "" ∧ o.futurePredictions ≠ "" ∧ o.cropRecommendations ≠ "" ∧
  o.riskAssessment ≠ "" ∧ o.simplifiedExplanation ≠ "" ∧
  o.environmentalSolutions ≠ "" ∧ o.healthAdvisory ≠ ""

/-- All seven text fields of a Report are non-empty. -/
def reportTextNonempty (r : Report) : Prop :=
  r.summary ≠ "" ∧ r.futurePredictions ≠ "" ∧ r.cropRecommendations ≠ "" ∧
  r.riskAssessment ≠ "" ∧ r.simplifiedExplanation ≠ "" ∧
  r.environmentalSolutions ≠ "" ∧ r.healthAdvisory ≠ ""

/- ===== DataQualityScorer (spec §4.3; absent from the source tree) ===== -/

/-- Modelled from the spec: `QualityGrade` (spec §3); no DataQualityScorer
exists in the repository source. -/
inductive QualityGrade where
  | excellent
  | good
  | fair
  | poor
deriving Repr, DecidableEq

/-- Modelled from the spec: the 24h max-age window of §4.3, in ms. -/
def MAX_SNAPSHOT_AGE_MS : ℕ := 24 * 60 * 60 * 1000

/-- Modelled from the spec: the bound/validity battery of §4.3 that does
not involve the clock (values within declared bounds, fire risk not
unknown). -/
def baseQualityChecks (d : EnvironmentalData) : List Bool :=
  [ decide (0 ≤ d.soil.moisture ∧ d.soil.moisture ≤ 1),
    decide (-1 ≤ d.vegetation.ndvi ∧ d.vegetation.ndvi ≤ 1),
    decide (0 ≤ d.soil.ph ∧ d.soil.ph ≤ 14),
    decide (0 ≤ d.water.surfaceWater ∧ d.water.surfaceWater ≤ 1),
    decide (0 ≤ d.water.precipitation),
    decide (0 ≤ d.airQuality.aerosolIndex),
    decide (0 ≤ d.airQuality.co),
    decide (d.fire.fireRisk ≠ FireRisk.unknown) ]

/-- Modelled from the spec: the full check battery of §4.3; `ageMs` is the
age of the `lastUpdated` marker at scoring time. -/
def qualityChecks (d : EnvironmentalData) (ageMs : ℕ) : List Bool :=
  baseQualityChecks d ++ [decide (ageMs ≤ MAX_SNAPSHOT_AGE_MS)]

/-- Modelled from the spec: fraction of passing checks (§4.3). -/
def qualityScore (d : EnvironmentalData) (ageMs : ℕ) : ℚ :=
  ((qualityChecks d ageMs).count true : ℚ) / ((qualityChecks d ageMs).length : ℚ)

/-- Modelled from the spec: the fixed grade thresholds of §4.3. -/
def gradeOfScore (s : ℚ) : QualityGrade :=
  if 9 / 10 ≤ s then .excellent
  else if 7 / 10 ≤ s then .good
  else if 1 / 2 ≤ s then .fair
  else .poor

/-- Modelled from the spec: `Score(snapshot) -> QualityGrade` (§4.3). -/
def scoreSnapshot (d : EnvironmentalData) (ageMs : ℕ) : QualityGrade :=
  gradeOfScore (qualityScore d ageMs)

/- ===== ResponseCache (spec §4.4; absent from the source tree) ===== -/

/-- Modelled from the spec: the 5-minute TTL of §4.4, in ms. -/
def CACHE_TTL_MS : ℕ := 5 * 60 * 1000

/-- Modelled from the spec: the 100-entry capacity of §4.4. -/
def CACHE_MAX_ENTRIES : ℕ := 100

/-- Modelled from the spec: one cache entry — key, stored Report, insertion
time (§3).  No ResponseCache exists in the repository source. -/
structure CacheEntry where
  key : String
  report : Report
  insertedAt : ℕ

/-- Modelled from the spec: the cache table, in insertion order (oldest
first). -/
structure ResponseCache where
  entries : List CacheEntry

/-- Modelled from the spec: key derivation of §4.4 — location rounded to a
fixed coordinate precision combined with the snapshot freshness marker. -/
def cacheKey (loc : Location) (freshnessMarker : String) : String :=
  jsToFixed 2 loc.lat ++ "," ++ jsToFixed 2 loc.lng ++ "|" ++ freshnessMarker

/-- An entry is fresh at `now` when its age is below the TTL. -/
def freshAt (now : ℕ) (e : CacheEntry) : Bool :=
  decide (now < e.insertedAt + CACHE_TTL_MS)

/-- Modelled from the spec: `Get(key) -> Report | Miss` (§4.4); lookups past
TTL are misses and stale entries are evicted lazily. -/
def cacheGet (c : ResponseCache) (key : String) (now : ℕ) :
    Option Report × ResponseCache :=
  let kept := c.entries.filter (freshAt now)
  ((kept.find? fun e => e.key == key).map (fun e => e.report), ⟨kept⟩)

/-- Modelled from the spec: `Put(key, report)` (§4.4); on overflow the
single oldest-inserted entry is evicted. -/
def cachePut (c : ResponseCache) (key : String) (r : Report) (now : ℕ) :
    ResponseCache :=
  if CACHE_MAX_ENTRIES < (c.entries ++ [CacheEntry.mk key r now]).length
  then ⟨(c.entries ++ [CacheEntry.mk key r now]).tail⟩
  else ⟨c.entries ++ [CacheEntry.mk key r now]⟩

/-- Result of one cached call: the Report, the cache afterwards, and
whether the generation stage was invoked. -/
structure CachedCallResult where
  report : Report
  cache : ResponseCache
  generationInvoked : Bool

/-- Modelled from the spec: `GetLocationData` wrapped by the ResponseCache
(§2 control flow and §4.4) — lookup first, on a miss run the pipeline and
store the Report. -/
def cachedGetLocationData (loc : Location) (w : WorldInputs)
    (c : ResponseCache) (now : ℕ) : CachedCallResult :=
  let key := cacheKey loc w.nowIso1
  match cacheGet c key now with
  | (some r, c2) => ⟨r, c2, false⟩
  | (none, c2) =>
    let r := getLocationData loc w
    ⟨r, cachePut c2 key r now, true⟩

/- ===== Sample concrete inputs (used by witnesses) ===== -/

/-- A concrete entropy assignment with every draw equal to 1/2. -/
def sampleEntropy : Entropy :=
  { tempRand := 1 / 2
    forecastTempRand := fun _ => 1 / 2
    precipRand := 1 / 2
    moistureRand := 1 / 2
    phRand := 1 / 2
    aodRand := 1 / 2
    coRand := 1 / 2 }

/-- A concrete valid location (the scenario of spec §8). -/
def sampleLocation : Location :=
  { lat := 407128 / 10000, lng := -740060 / 10000, name := some "New York, USA" }

/-- An out-of-range location (latitude 91). -/
def invalidLocation : Location := { lat := 91, lng := 0, name := none }

/-- A concrete snapshot, as synthesized with every provider absent. -/
def sampleEnv : EnvironmentalData :=
  fetchEnvironmentalData (.fulfilled none) (.fulfilled ⟨0, .low⟩) sampleEntropy
    (fun _ => "Mon") "2026-01-01T00:00:00.000Z"

/-- The sample snapshot paired with the sample location, as the
orchestrator flow body reads its input. -/
def sampleOrchEnv : OrchestratorEnvData :=
  { toEnvironmentalData := sampleEnv, location := sampleLocation }

/-- All six generation tasks rejected. -/
def allRejected : GenerationOutcomes :=
  { predictionsResult := .rejected
    cropRecommendationsResult := .rejected
    riskAssessmentResult := .rejected
    simplifiedExplanationResult := .rejected
    environmentalSolutionsResult := .rejected
    healthResult := .rejected }

/-- A world where every provider call fails and the orchestrator call
throws: total outage. -/
def outageWorld : WorldInputs :=
  { power1 := .rejected
    fire1 := .rejected
    e1 := sampleEntropy
    nowIso1 := "2026-01-01T00:00:00.000Z"
    orch := .thrown
    power2 := .rejected
    fire2 := .rejected
    e2 := sampleEntropy
    nowIso2 := "2026-01-01T00:00:01.000Z"
    dayName := fun _ => "Mon" }

/-- A NASA POWER payload whose NDVI value for the selected date is 5,
a value the provider could return and the code uses unclamped. -/
def badNdviPayload : NasaPowerResponse :=
  { header := none
    properties := some
      { parameter :=
          [ ("TS_DAY_MODIS", [("20260101", 20), ("20260102", 20), ("20260103", 20)]),
            ("NDVI_MODIS", [("20260101", 5)]) ] } }

/- ===== Helper lemmas ===== -/

theorem string_eq_empty_of_length (s : String) (h : s.length = 0) : s = "" := by
  cases s with
  | mk data =>
    cases data with
    | nil => rfl
    | cons c cs => simp [String.length] at h

theorem append_ne_empty_left (s t : String) (h : s ≠ "") : s ++ t ≠ "" := by
  intro he
  have hl : s.length + t.length = 0 := by rw [← String.length_append, he]; rfl
  exact h (string_eq_empty_of_length s (by omega))

theorem round2_mono {a b : ℚ} (h : a ≤ b) : round2 a ≤ round2 b := by
  unfold round2
  have hf : ⌊a * 100 + 1 / 2⌋ ≤ ⌊b * 100 + 1 / 2⌋ := Int.floor_le_floor (by linarith)
  have : ((⌊a * 100 + 1 / 2⌋ : ℤ) : ℚ) ≤ ((⌊b * 100 + 1 / 2⌋ : ℤ) : ℚ) := by exact_mod_cast hf
  linarith

theorem round2_hundredth (z : ℤ) : round2 ((z : ℚ) / 100) = (z : ℚ) / 100 := by
  unfold round2
  have h1 : (z : ℚ) / 100 * 100 + 1 / 2 = (z : ℚ) + 1 / 2 := by ring
  rw [h1]
  have h2 : ⌊(z : ℚ) + 1 / 2⌋ = z + ⌊(1 : ℚ) / 2⌋ := Int.floor_int_add z (1 / 2)
  have h3 : ⌊(1 : ℚ) / 2⌋ = 0 := by norm_num
  rw [h2, h3]
  push_cast
  ring

theorem round2_le_of_le {q : ℚ} (z : ℤ) (h : q ≤ (z : ℚ) / 100) : round2 q ≤ (z : ℚ) / 100 := by
  calc round2 q ≤ round2 ((z : ℚ) / 100) := round2_mono h
    _ = (z : ℚ) / 100 := round2_hundredth z

theorem le_round2_of_le {q : ℚ} (z : ℤ) (h : (z : ℚ) / 100 ≤ q) : (z : ℚ) / 100 ≤ round2 q := by
  calc (z : ℚ) / 100 = round2 ((z : ℚ) / 100) := (round2_hundredth z).symm
    _ ≤ round2 q := round2_mono h

theorem round2_nonneg {q : ℚ} (h : 0 ≤ q) : 0 ≤ round2 q := by
  have h0 : ((0 : ℤ) : ℚ) / 100 ≤ round2 q := le_round2_of_le 0 (by push_cast; linarith)
  push_cast at h0
  linarith

/- ===== Claim theorems ===== -/

/-- C4: the derived fire-risk tier follows the fixed thresholds exactly
(very-high for n > 10, high for 5 < n ≤ 10, medium for 0 < n ≤ 5, low for
n = 0) and is monotonically non-decreasing in the active-fire count under
the order low < medium < high < very-high. -/
theorem fireRisk_thresholds_monotone :
    (∀ n : ℕ,
      (10 < n → fireRiskOfCount n = .veryHigh) ∧
      (5 < n ∧ n ≤ 10 → fireRiskOfCount n = .high) ∧
      (0 < n ∧ n ≤ 5 → fireRiskOfCount n = .medium) ∧
      (n = 0 → fireRiskOfCount n = .low)) ∧
    (∀ n m : ℕ, n ≤ m → (fireRiskOfCount n).rank ≤ (fireRiskOfCount m).rank) := by
  have hr : ∀ k : ℕ, (fireRiskOfCount k).rank =
      if 10 < k then 3 else if 5 < k then 2 else if 0 < k then 1 else 0 := by
    intro k
    simp only [fireRiskOfCount]
    split_ifs <;> rfl
  constructor
  · intro n
    refine ⟨fun h => ?_, fun h => ?_, fun h => ?_, fun h => ?_⟩ <;> simp only [fireRiskOfCount]
    · rw [if_pos h]
    · rw [if_neg (by omega), if_pos h.1]
    · rw [if_neg (by omega), if_neg (by omega), if_pos h.1]
    · rw [if_neg (by omega), if_neg (by omega), if_neg (by omega)]
  · intro n m hnm
    rw [hr n, hr m]
    split_ifs <;> omega

/-- C4 witness: the theorem at concrete counts. -/
theorem fireRisk_thresholds_monotone_witness :
    fireRiskOfCount 11 = .veryHigh ∧ (fireRiskOfCount 3).rank ≤ (fireRiskOfCount 7).rank :=
  ⟨(fireRisk_thresholds_monotone.1 11).1 (by omega),
   fireRisk_thresholds_monotone.2 3 7 (by omega)⟩

/-- C5: when the provider value of a requested field equals the declared
fill-value sentinel (the header fill_value, or -999 when the header is
absent), extraction returns the rounded fallback — the same value it
returns when the field is absent altogether. -/
theorem extractPowerValue_sentinel
    (pd : Option NasaPowerResponse) (param dateKey : String) (fb : ℚ)
    (hsent : powerLookup pd param dateKey = some (fillValueOf pd)) :
    extractPowerValue pd param dateKey fb = round2 fb ∧
    ∀ pd2 : Option NasaPowerResponse, powerLookup pd2 param dateKey = none →
      extractPowerValue pd param dateKey fb = extractPowerValue pd2 param dateKey fb := by
  have hmain : extractPowerValue pd param dateKey fb = round2 fb := by
    unfold extractPowerValue
    rw [hsent]
    by_cases h0 : fillValueOf pd = 0
    · simp [h0]
    · simp [h0]
  refine ⟨hmain, fun pd2 h2 => ?_⟩
  rw [hmain]
  unfold extractPowerValue
  rw [h2]

/-- C5 witness: a payload whose header is absent and whose NDVI value for
the requested date is the default sentinel -999. -/
theorem extractPowerValue_sentinel_witness :
    extractPowerValue
        (some { header := none,
                properties := some { parameter := [("NDVI_MODIS", [("20260101", -999)])] } })
        "NDVI_MODIS" "20260101" (1 / 4) = round2 (1 / 4) :=
  (extractPowerValue_sentinel _ "NDVI_MODIS" "20260101" (1 / 4)
    (by simp [powerLookup, powerLookupParam, fillValueOf, NASA_FILL_VALUE, List.lookup])).1

/-- C10: the fire source client distinguishes its failure modes — missing
credential yields {activeFires 0, low} with no network call, a non-2xx
response yields {0, low}, a thrown request yields {0, unknown} — and the
unknown tier is reachable in the Report returned by getLocationData. -/
theorem fireClient_failure_modes :
    (∀ (loc : Location) (outcome : FirmsOutcome),
      fetchFireData false loc outcome = ⟨⟨0, .low⟩, false⟩) ∧
    (∀ loc : Location, fetchFireData true loc .httpError = ⟨⟨0, .low⟩, true⟩) ∧
    (∀ loc : Location, fetchFireData true loc .thrown = ⟨⟨0, .unknown⟩, true⟩) ∧
    (∃ (loc : Location) (w : WorldInputs),
      (getLocationData loc w).fire.fireRisk = .unknown) := by
  refine ⟨fun loc outcome => rfl, fun loc => rfl, fun loc => rfl,
    ⟨sampleLocation,
      { outageWorld with
          fire1 := .fulfilled (fetchFireData true sampleLocation .thrown).data
          orch := .ok fallbackInsights }, rfl⟩⟩

/-- C1: for every snapshot and every subset of failing generation tasks,
the orchestrator output is fully populated — each failed task contributes
its task-specific, non-empty fallback string, each fulfilled task its
generated text, and each field depends only on its own task's outcome. -/
theorem orchestrator_partial_failure_tolerance
    (env : OrchestratorEnvData) (rs : GenerationOutcomes) :
    ((rs.predictionsResult = .rejected →
        (orchestratorFlow env rs).futurePredictions = predictionsFallback) ∧
      (∀ v, rs.predictionsResult = .fulfilled v →
        (orchestratorFlow env rs).futurePredictions = v.predictions) ∧
      predictionsFallback ≠ "") ∧
    ((rs.cropRecommendationsResult = .rejected →
        (orchestratorFlow env rs).cropRecommendations = cropFallback) ∧
      (∀ v, rs.cropRecommendationsResult = .fulfilled v →
        (orchestratorFlow env rs).cropRecommendations = v.cropRecommendations) ∧
      cropFallback ≠ "") ∧
    ((rs.riskAssessmentResult = .rejected →
        (orchestratorFlow env rs).riskAssessment = riskFallback) ∧
      (∀ v, rs.riskAssessmentResult = .fulfilled v →
        (orchestratorFlow env rs).riskAssessment = v.riskAssessment) ∧
      riskFallback ≠ "") ∧
    ((rs.simplifiedExplanationResult = .rejected →
        (orchestratorFlow env rs).simplifiedExplanation = simplifiedFallback env) ∧
      (∀ v, rs.simplifiedExplanationResult = .fulfilled v →
        (orchestratorFlow env rs).simplifiedExplanation = v.simplifiedExplanation) ∧
      simplifiedFallback env ≠ "") ∧
    ((rs.environmentalSolutionsResult = .rejected →
        (orchestratorFlow env rs).environmentalSolutions = solutionsFallback) ∧
      (∀ v, rs.environmentalSolutionsResult = .fulfilled v →
        (orchestratorFlow env rs).environmentalSolutions = v.solutions) ∧
      solutionsFallback ≠ "") ∧
    ((rs.healthResult = .rejected →
        (orchestratorFlow env rs).healthAdvisory = healthFallback) ∧
      (∀ v, rs.healthResult = .fulfilled v →
        (orchestratorFlow env rs).healthAdvisory = v.healthAdvisory) ∧
      healthFallback ≠ "") ∧
    (∀ rs2 : GenerationOutcomes,
      (rs2.predictionsResult = rs.predictionsResult →
        (orchestratorFlow env rs2).futurePredictions =
          (orchestratorFlow env rs).futurePredictions) ∧
      (rs2.cropRecommendationsResult = rs.cropRecommendationsResult →
        (orchestratorFlow env rs2).cropRecommendations =
          (orchestratorFlow env rs).cropRecommendations) ∧
      (rs2.riskAssessmentResult = rs.riskAssessmentResult →
        (orchestratorFlow env rs2).riskAssessment =
          (orchestratorFlow env rs).riskAssessment) ∧
      (rs2.simplifiedExplanationResult = rs.simplifiedExplanationResult →
        (orchestratorFlow env rs2).simplifiedExplanation =
          (orchestratorFlow env rs).simplifiedExplanation) ∧
      (rs2.environmentalSolutionsResult = rs.environmentalSolutionsResult →
        (orchestratorFlow env rs2).environmentalSolutions =
          (orchestratorFlow env rs).environmentalSolutions) ∧
      (rs2.healthResult = rs.healthResult →
        (orchestratorFlow env rs2).healthAdvisory =
          (orchestratorFlow env rs).healthAdvisory)) := by
  have hs : simplifiedFallback env ≠ "" := by
    simp only [simplifiedFallback]
    exact append_ne_empty_left _ _ (append_ne_empty_left _ _ (by decide))
  refine ⟨⟨?_, ?_, by decide⟩, ⟨?_, ?_, by decide⟩, ⟨?_, ?_, by decide⟩,
    ⟨?_, ?_, hs⟩, ⟨?_, ?_, by decide⟩, ⟨?_, ?_, by decide⟩, ?_⟩
  all_goals first
  | (intro h
     simp [orchestratorFlow, settledOr, h])
  | (intro v h
     simp [orchestratorFlow, settledOr, h])
  | (intro rs2
     refine ⟨?_, ?_, ?_, ?_, ?_, ?_⟩ <;>
       (intro h
        simp [orchestratorFlow, settledOr, h]))

/-- C1 witness: all six tasks fail on the sample snapshot. -/
theorem orchestrator_partial_failure_tolerance_witness :
    (orchestratorFlow sampleOrchEnv allRejected).futurePredictions = predictionsFallback ∧
    (orchestratorFlow sampleOrchEnv allRejected).healthAdvisory = healthFallback :=
  ⟨((orchestrator_partial_failure_tolerance sampleOrchEnv allRejected).1).1 rfl,
   ((orchestrator_partial_failure_tolerance sampleOrchEnv allRejected).2.2.2.2.2.1).1 rfl⟩

/-- C6: the summary field of the orchestrator output is the deterministic,
non-generative function generateSummary of the snapshot, identical whatever
subset of generation tasks fails, and never empty. -/
theorem summary_deterministic_nonempty
    (env : OrchestratorEnvData) (rs rs2 : GenerationOutcomes) :
    (orchestratorFlow env rs).summary = generateSummary env ∧
    (orchestratorFlow env rs).summary = (orchestratorFlow env rs2).summary ∧
    generateSummary env ≠ "" := by
  refine ⟨rfl, rfl, ?_⟩
  simp only [generateSummary]
  repeat apply append_ne_empty_left
  decide

/-- C2: for every syntactically valid Location, getLocationData returns a
Report in which all seven text fields are non-empty, for every behavior of
the external providers and of the orchestrator call (assuming a fulfilled
orchestrator output carries non-empty texts); in particular it holds when
every provider call fails and every credential is absent, in which case the
catch branch fills the static fallback strings. -/
theorem getLocationData_populated (loc : Location) (_hval : loc.isValid)
    (w : WorldInputs)
    (hgen : ∀ o, w.orch = .ok o → insightsTextNonempty o) :
    reportTextNonempty (getLocationData loc w) := by
  unfold getLocationData
  cases horch : w.orch with
  | ok o =>
    have := hgen o horch
    simpa [mkReport, reportTextNonempty, insightsTextNonempty] using this
  | thrown =>
    simp only [mkReport, reportTextNonempty]
    refine ⟨?_, ?_, ?_, ?_, ?_, ?_, ?_⟩ <;> decide

/-- C2 witness: the valid sample location under total outage (all providers
rejected, orchestrator call thrown). -/
theorem getLocationData_populated_witness :
    reportTextNonempty (getLocationData sampleLocation outageWorld) :=
  getLocationData_populated sampleLocation
    (by norm_num [sampleLocation, Location.isValid])
    outageWorld (fun o h => nomatch h)

/-- C8: the quality scorer maps the fraction of passing checks through the
fixed thresholds (excellent at 0.9, good at 0.7, fair at 0.5, else poor),
and a snapshot older than 24 hours never grades excellent. -/
theorem quality_thresholds_and_staleness :
    (∀ s : ℚ,
      (9 / 10 ≤ s → gradeOfScore s = .excellent) ∧
      (7 / 10 ≤ s ∧ s < 9 / 10 → gradeOfScore s = .good) ∧
      (1 / 2 ≤ s ∧ s < 7 / 10 → gradeOfScore s = .fair) ∧
      (s < 1 / 2 → gradeOfScore s = .poor)) ∧
    (∀ (d : EnvironmentalData) (ageMs : ℕ),
      MAX_SNAPSHOT_AGE_MS < ageMs → scoreSnapshot d ageMs ≠ .excellent) := by
  constructor
  · intro s
    refine ⟨fun h => ?_, fun h => ?_, fun h => ?_, fun h => ?_⟩ <;> simp only [gradeOfScore]
    · rw [if_pos h]
    · rw [if_neg (by linarith [h.2]), if_pos h.1]
    · rw [if_neg (by linarith [h.2]), if_neg (by linarith [h.2]), if_pos h.1]
    · rw [if_neg (by linarith), if_neg (by linarith), if_neg (by linarith)]
  · intro d ageMs hage
    have hfresh : decide (ageMs ≤ MAX_SNAPSHOT_AGE_MS) = false :=
      decide_eq_false (by omega)
    have hcount : (qualityChecks d ageMs).count true ≤ 8 := by
      have h1 : (qualityChecks d ageMs).count true =
          (baseQualityChecks d).count true + ([false] : List Bool).count true := by
        rw [qualityChecks, hfresh, List.count_append]
      have h2 : (baseQualityChecks d).count true ≤ (baseQualityChecks d).length :=
        List.count_le_length true (baseQualityChecks d)
      have h3 : (baseQualityChecks d).length = 8 := rfl
      have h4 : ([false] : List Bool).count true = 0 := rfl
      omega
    have hlen : ((qualityChecks d ageMs).length : ℚ) = 9 := by
      rw [qualityChecks, List.length_append]
      norm_num [baseQualityChecks]
    have hscore : qualityScore d ageMs < 9 / 10 := by
      rw [qualityScore, hlen]
      have : ((qualityChecks d ageMs).count true : ℚ) ≤ 8 := by exact_mod_cast hcount
      linarith
    simp only [scoreSnapshot, gradeOfScore]
    rw [if_neg (by linarith)]
    split_ifs <;> simp

/-- C8 witness: the theorem at a concrete score, a concrete snapshot and a
concrete stale age. -/
theorem quality_thresholds_and_staleness_witness :
    gradeOfScore (19 / 20) = .excellent ∧
    scoreSnapshot sampleEnv (MAX_SNAPSHOT_AGE_MS + 1) ≠ .excellent :=
  ⟨(quality_thresholds_and_staleness.1 (19 / 20)).1 (by norm_num),
   quality_thresholds_and_staleness.2 sampleEnv (MAX_SNAPSHOT_AGE_MS + 1) (by omega)⟩

/-- Auxiliary: finding in a list whose prefix wholly fails the predicate
returns the first match of the suffix. -/
theorem find_append_of_prefix_false {α : Type} (l : List α) (x : α) (p : α → Bool)
    (hl : ∀ e ∈ l, p e = false) (hx : p x = true) :
    (l ++ [x]).find? p = some x := by
  induction l with
  | nil => simp [List.find?, hx]
  | cons a as ih =>
    have ha : p a = false := hl a (by simp)
    simp only [List.cons_append, List.find?, ha]
    exact ih fun e he => hl e (by simp [he])

/-- Auxiliary: a put decomposes into entries satisfying a key predicate
followed by the newly inserted entry (capacity eviction drops only the
oldest entry, never the new one). -/
theorem cachePut_decompose (es : List CacheEntry) (key : String) (r : Report)
    (now : ℕ) (P : String → Prop) (hes : ∀ e ∈ es, P e.key) :
    ∃ l, (cachePut ⟨es⟩ key r now).entries = l ++ [CacheEntry.mk key r now] ∧
      ∀ e ∈ l, P e.key := by
  unfold cachePut
  split
  · next hlong =>
    cases es with
    | nil => simp [CACHE_MAX_ENTRIES] at hlong
    | cons a as => exact ⟨as, rfl, fun e he => hes e (List.mem_cons_of_mem a he)⟩
  · exact ⟨es, rfl, hes⟩

/-- C7: starting from a cache holding no entry for the derived key, two
consecutive cached calls with the same Location and the same freshness
marker, the second within the TTL window, return the identical Report, and
the second call does not invoke the generation pipeline. -/
theorem cache_idempotent (loc : Location) (w : WorldInputs) (c : ResponseCache)
    (now1 now2 : ℕ)
    (hk : ∀ e ∈ c.entries, e.key ≠ cacheKey loc w.nowIso1)
    (_h12 : now1 ≤ now2) (hTTL : now2 < now1 + CACHE_TTL_MS) :
    (cachedGetLocationData loc w (cachedGetLocationData loc w c now1).cache now2).report
      = (cachedGetLocationData loc w c now1).report ∧
    (cachedGetLocationData loc w
      (cachedGetLocationData loc w c now1).cache now2).generationInvoked = false := by
  have hkept1mem : ∀ e ∈ c.entries.filter (freshAt now1), e.key ≠ cacheKey loc w.nowIso1 :=
    fun e he => hk e (List.mem_of_mem_filter he)
  have hfind1 : (c.entries.filter (freshAt now1)).find?
      (fun e => e.key == cacheKey loc w.nowIso1) = none :=
    List.find?_eq_none.mpr (fun e he => by simp [hkept1mem e he])
  have hc1 : cachedGetLocationData loc w c now1 =
      ⟨getLocationData loc w,
        cachePut ⟨c.entries.filter (freshAt now1)⟩ (cacheKey loc w.nowIso1)
          (getLocationData loc w) now1, true⟩ := by
    simp [cachedGetLocationData, cacheGet, hfind1]
  obtain ⟨l, hl, hlkeys⟩ :=
    cachePut_decompose (c.entries.filter (freshAt now1)) (cacheKey loc w.nowIso1)
      (getLocationData loc w) now1 (fun k => k ≠ cacheKey loc w.nowIso1) hkept1mem
  have hfreshNew :
      freshAt now2 (CacheEntry.mk (cacheKey loc w.nowIso1) (getLocationData loc w) now1)
        = true := decide_eq_true hTTL
  have hfind2 : ((cachePut ⟨c.entries.filter (freshAt now1)⟩ (cacheKey loc w.nowIso1)
        (getLocationData loc w) now1).entries.filter (freshAt now2)).find?
      (fun e => e.key == cacheKey loc w.nowIso1) =
      some (CacheEntry.mk (cacheKey loc w.nowIso1) (getLocationData loc w) now1) := by
    rw [hl, List.filter_append]
    have hone : ([CacheEntry.mk (cacheKey loc w.nowIso1) (getLocationData loc w) now1]).filter
        (freshAt now2) = [CacheEntry.mk (cacheKey loc w.nowIso1) (getLocationData loc w) now1] := by
      simp [hfreshNew]
    rw [hone]
    apply find_append_of_prefix_false
    · intro e he
      simp [hlkeys e (List.mem_of_mem_filter he)]
    · simp
  rw [hc1]
  constructor <;> simp [cachedGetLocationData, cacheGet, hfind2]

/-- C7 witness: the empty cache, two calls one millisecond apart. -/
theorem cache_idempotent_witness :
    (cachedGetLocationData sampleLocation outageWorld
        (cachedGetLocationData sampleLocation outageWorld ⟨[]⟩ 0).cache 1).report
      = (cachedGetLocationData sampleLocation outageWorld ⟨[]⟩ 0).report ∧
    (cachedGetLocationData sampleLocation outageWorld
        (cachedGetLocationData sampleLocation outageWorld ⟨[]⟩ 0).cache 1).generationInvoked
      = false :=
  cache_idempotent sampleLocation outageWorld ⟨[]⟩ 0 1
    (by intro e he; simp at he) (by omega) (by norm_num [CACHE_TTL_MS])

theorem extractPowerValue_none (param dateKey : String) (fb : ℚ) :
    extractPowerValue none param dateKey fb = round2 fb := rfl

theorem fetch_none_eq (fireSettled : SettledResult FireData) (e : Entropy)
    (dayName : ℕ → String) (nowIso : String) :
    fetchEnvironmentalData (.fulfilled none) fireSettled e dayName nowIso =
      synthesizedFallbackSnapshot fireSettled e dayName nowIso := rfl

theorem fetch_rejected_eq (fireSettled : SettledResult FireData) (e : Entropy)
    (dayName : ℕ → String) (nowIso : String) :
    fetchEnvironmentalData .rejected fireSettled e dayName nowIso =
      synthesizedFallbackSnapshot fireSettled e dayName nowIso := rfl

theorem round2_le_one {q : ℚ} (h : q ≤ 1) : round2 q ≤ 1 := by
  have := round2_le_of_le (q := q) 100 (by push_cast; linarith)
  push_cast at this
  linarith

theorem round2_le_fourteen {q : ℚ} (h : q ≤ 14) : round2 q ≤ 14 := by
  have := round2_le_of_le (q := q) 1400 (by push_cast; linarith)
  push_cast at this
  linarith

/-- C3 counterexample: a NASA POWER payload carrying NDVI = 5 (a value
distinct from 0 and from the fill sentinel) flows through extraction
unclamped, so the synthesized snapshot leaves the declared bound
`ndvi ∈ [-1, 1]`. -/
theorem snapshot_bounds_counterexample :
    (fetchEnvironmentalData (.fulfilled (some badNdviPayload)) (.fulfilled ⟨0, .low⟩)
      sampleEntropy (fun _ => "Mon") "2026-01-01T00:00:00.000Z").vegetation.ndvi = 5 ∧
    ¬ ((fetchEnvironmentalData (.fulfilled (some badNdviPayload)) (.fulfilled ⟨0, .low⟩)
      sampleEntropy (fun _ => "Mon") "2026-01-01T00:00:00.000Z").vegetation.ndvi ≤ 1) := by
  have h : (fetchEnvironmentalData (.fulfilled (some badNdviPayload)) (.fulfilled ⟨0, .low⟩)
      sampleEntropy (fun _ => "Mon") "2026-01-01T00:00:00.000Z").vegetation.ndvi = 5 := by
    have hkeys : sortStrings ["20260101", "20260102", "20260103"] =
        ["20260101", "20260102", "20260103"] := by decide
    have hb1 : ("TS_DAY_MODIS" == "TS_DAY_MODIS") = true := by decide
    have hb2 : ("NDVI_MODIS" == "TS_DAY_MODIS") = false := by decide
    have hb3 : ("NDVI_MODIS" == "NDVI_MODIS") = true := by decide
    have hb4 : ("20260101" == "20260101") = true := by decide
    have hb5 : ("PRECTOTCORR" == "TS_DAY_MODIS") = false := by decide
    have hb6 : ("PRECTOTCORR" == "NDVI_MODIS") = false := by decide
    simp [fetchEnvironmentalData, badNdviPayload, powerLookupParam, powerLookup, List.lookup,
      extractPowerValue, jsIndexOr, fillValueOf, NASA_FILL_VALUE, hkeys, hb1, hb2, hb3, hb4,
      hb5, hb6]
    norm_num [round2]
  exact ⟨h, by rw [h]; norm_num⟩

/-- C3 amended: whenever the NASA POWER payload is absent (so no
provider-supplied numeric value is used), the synthesized snapshot
satisfies every declared bound — moisture and surface water in [0,1], NDVI
in [-1,1], pH in [0,14], and the non-negativity constraints — for every
fire-source outcome and every entropy draw. -/
theorem snapshot_bounds_of_absent_provider
    (powerSettled : SettledResult (Option NasaPowerResponse))
    (fireSettled : SettledResult FireData) (e : Entropy)
    (dayName : ℕ → String) (nowIso : String)
    (hnone : powerSettled = .rejected ∨ powerSettled = .fulfilled none)
    (he : e.valid) :
    (0 ≤ (fetchEnvironmentalData powerSettled fireSettled e dayName nowIso).soil.moisture ∧
      (fetchEnvironmentalData powerSettled fireSettled e dayName nowIso).soil.moisture ≤ 1) ∧
    (-1 ≤ (fetchEnvironmentalData powerSettled fireSettled e dayName nowIso).vegetation.ndvi ∧
      (fetchEnvironmentalData powerSettled fireSettled e dayName nowIso).vegetation.ndvi ≤ 1) ∧
    (0 ≤ (fetchEnvironmentalData powerSettled fireSettled e dayName nowIso).soil.ph ∧
      (fetchEnvironmentalData powerSettled fireSettled e dayName nowIso).soil.ph ≤ 14) ∧
    (0 ≤ (fetchEnvironmentalData powerSettled fireSettled e dayName nowIso).water.surfaceWater ∧
      (fetchEnvironmentalData powerSettled fireSettled e dayName
        nowIso).water.surfaceWater ≤ 1) ∧
    0 ≤ (fetchEnvironmentalData powerSettled fireSettled e dayName nowIso).water.precipitation ∧
    0 ≤ (fetchEnvironmentalData powerSettled fireSettled e dayName
      nowIso).airQuality.aerosolIndex ∧
    0 ≤ (fetchEnvironmentalData powerSettled fireSettled e dayName nowIso).airQuality.co ∧
    0 ≤ (fetchEnvironmentalData powerSettled fireSettled e dayName nowIso).soil.nitrogen ∧
    0 ≤ (fetchEnvironmentalData powerSettled fireSettled e dayName nowIso).soil.phosphorus ∧
    0 ≤ (fetchEnvironmentalData powerSettled fireSettled e dayName nowIso).soil.potassium := by
  obtain ⟨ht0, ht1, hfc, hp0, hp1, hm0, hm1, hph0, hph1, ha0, ha1, hco0, hco1⟩ := he
  have hred : fetchEnvironmentalData powerSettled fireSettled e dayName nowIso =
      synthesizedFallbackSnapshot fireSettled e dayName nowIso := by
    rcases hnone with h | h <;> subst h
    · exact fetch_rejected_eq fireSettled e dayName nowIso
    · exact fetch_none_eq fireSettled e dayName nowIso
  rw [hred]
  simp only [synthesizedFallbackSnapshot]
  refine ⟨⟨?_, ?_⟩, ⟨?_, ?_⟩, ⟨?_, ?_⟩, ⟨?_, ?_⟩, ?_, ?_, ?_, ?_, ?_, ?_⟩
  · apply round2_nonneg
    split_ifs <;> linarith
  · apply round2_le_one
    split_ifs <;> linarith
  · refine le_trans (by norm_num) (round2_nonneg (round2_nonneg ?_))
    simp only [jsMin, jsMax]
    split_ifs <;> linarith
  · apply round2_le_one
    apply round2_le_one
    simp only [jsMin, jsMax]
    split_ifs <;> linarith
  · apply round2_nonneg
    linarith
  · apply round2_le_fourteen
    linarith
  · apply round2_nonneg
    simp only [jsMin]
    split_ifs <;> linarith
  · apply round2_le_one
    simp only [jsMin]
    split_ifs <;> linarith
  · apply round2_nonneg
    linarith
  · apply round2_nonneg
    linarith
  · apply round2_nonneg
    linarith
  · apply round2_nonneg
    split_ifs <;> linarith
  · apply round2_nonneg
    split_ifs <;> linarith
  · apply round2_nonneg
    split_ifs <;> linarith

/-- C3 amended witness: the rejected NASA promise with the sample entropy. -/
theorem snapshot_bounds_of_absent_provider_witness :
    0 ≤ (fetchEnvironmentalData .rejected (.fulfilled ⟨0, .low⟩) sampleEntropy
      (fun _ => "Mon") "2026-01-01T00:00:00.000Z").soil.moisture ∧
    (fetchEnvironmentalData .rejected (.fulfilled ⟨0, .low⟩) sampleEntropy
      (fun _ => "Mon") "2026-01-01T00:00:00.000Z").soil.moisture ≤ 1 :=
  (snapshot_bounds_of_absent_provider .rejected (.fulfilled ⟨0, .low⟩) sampleEntropy
    (fun _ => "Mon") "2026-01-01T00:00:00.000Z" (Or.inl rfl)
    (by norm_num [Entropy.valid, sampleEntropy])).1

/-- C9 counterexample: for the out-of-range location (lat 91), no
validation error occurs — the pipeline runs in full: the credentialed fire
client issues its network request for that location and the returned
Report carries the provider-derived fire data. -/
theorem no_validation_counterexample :
    ¬ invalidLocation.isValid ∧
    (fetchFireData true invalidLocation
      (.ok "latitude,longitude\n-1,2")).networkCallIssued = true ∧
    (getLocationData invalidLocation
        { outageWorld with
            fire1 := .fulfilled ⟨3, .medium⟩
            orch := .ok fallbackInsights }).fire
      = ⟨3, .medium⟩ := by
  refine ⟨?_, rfl, rfl⟩
  norm_num [Location.isValid, invalidLocation]

/-- C9 amended: getLocationData performs no coordinate-range validation;
an out-of-range Location is processed identically to any other Location
under the same external-world behavior, and the credentialed fire client
issues its network request regardless of the coordinates. -/
theorem getLocationData_ignores_range (loc : Location) (_hinv : ¬ loc.isValid)
    (loc2 : Location) (w : WorldInputs) :
    getLocationData loc w = getLocationData loc2 w ∧
    ∀ outcome : FirmsOutcome, (fetchFireData true loc outcome).networkCallIssued = true :=
  ⟨rfl, fun outcome => by cases outcome <;> rfl⟩

/-- C9 amended witness: the lat-91 location against the sample location. -/
theorem getLocationData_ignores_range_witness :
    getLocationData invalidLocation outageWorld = getLocationData sampleLocation outageWorld ∧
    ∀ outcome : FirmsOutcome,
      (fetchFireData true invalidLocation outcome).networkCallIssued = true :=
  getLocationData_ignores_range invalidLocation
    (by norm_num [Location.isValid, invalidLocation]) sampleLocation outageWorld

end Terra
